import Mathlib

/-!
Shallow embedding of the Coderr marketplace backend (Django apps: offers,
orders, reviews, user-auth).  Database tables become lists of rows, each
HTTP handler becomes a function from the database state and the request to
the new state and a response.  Nullable columns are `Option`-typed; Django
model defaults are applied where the serializers apply them.
-/

namespace Coderr

/-- One row of the UserProfile table (user_auth_app/models.py).  The
`type` column distinguishes business from customer accounts. -/
structure UserRow where
  id : Nat
  username : String
  email : String
  type : String
  is_staff : Bool
  is_superuser : Bool
  deriving Repr, DecidableEq

/-- One row of the Offer table (offers_app/models.py). -/
structure OfferRow where
  id : Nat
  userId : Nat
  title : String
  description : String
  deriving Repr, DecidableEq

/-- One row of the OfferDetails table (offers_app/models.py).
`delivery_time_in_days`, `price` and `features` are nullable columns
(blank=True, null=True); `title`, `revisions` and `offer_type` are NOT
NULL. -/
structure OfferDetailRow where
  id : Nat
  offerId : Nat
  title : String
  revisions : Nat
  delivery_time_in_days : Option Nat
  price : Option Nat
  features : Option (List String)
  offer_type : String
  deriving Repr, DecidableEq

/-- One row of the Order table (orders_app/models.py): a denormalized
snapshot of an OfferDetails row plus customer/business references and a
status column.  Unlike OfferDetails, the delivery_time_in_days, price and
features columns are NOT NULL (PositiveIntegerField / JSONField without
null=True). -/
structure OrderRow where
  id : Nat
  customer_user : Nat
  business_user : Nat
  title : String
  revisions : Nat
  delivery_time_in_days : Nat
  price : Nat
  features : List String
  offer_type : String
  status : String
  deriving Repr, DecidableEq

/-- One row of the Review table (reviews_app/models.py). -/
structure ReviewRow where
  id : Nat
  business_user : Nat
  reviewer : Nat
  rating : Nat
  description : String
  deriving Repr, DecidableEq

/-- The relational state shared by all apps, together with the next free
primary key of each table. -/
structure DB where
  users : List UserRow
  offers : List OfferRow
  details : List OfferDetailRow
  orders : List OrderRow
  reviews : List ReviewRow
  nextOfferId : Nat
  nextDetailId : Nat
  nextOrderId : Nat
  nextReviewId : Nat
  nextUserId : Nat
  deriving Repr, DecidableEq

/-- An HTTP response: status code plus the optional message body carried by
error responses (the `error` / `detail` keys the views put in the body). -/
structure Resp where
  status : Nat
  message : Option String
  deriving Repr, DecidableEq

/-- Validated input for one nested OfferDetails row of an offer-creation
request, after OfferDetailsSerializer validation and Django model-default
application (`revisions` defaults to 0; the nullable columns default to
NULL / empty). -/
structure DetailInput where
  title : String
  revisions : Nat
  delivery_time_in_days : Option Nat
  price : Option Nat
  features : Option (List String)
  offer_type : String
  deriving Repr, DecidableEq

/-- Rows bulk-created from the validated detail inputs, with fresh primary
keys starting at `firstId`, all attached to offer `oid`
(OfferCreateSerializer.create, the bulk_create call). -/
def mkDetailRows (firstId oid : Nat) (ds : List DetailInput) : List OfferDetailRow :=
  (List.range ds.length).zip ds |>.map fun p =>
    { id := firstId + p.1
      offerId := oid
      title := p.2.title
      revisions := p.2.revisions
      delivery_time_in_days := p.2.delivery_time_in_days
      price := p.2.price
      features := p.2.features
      offer_type := p.2.offer_type }

/-- Embedding of OfferCreateSerializer.create
(offers_app/api/serializers.py).  The Offer row is inserted first; only
then is the detail count checked, and the check is guarded by Python
truthiness, so an empty details list skips both the check and the
bulk_create.  Returns the new state together with either the created
offer id or the validation-error message. -/
def offerCreateSer (st : DB) (userId : Nat) (otitle odescription : String)
    (details_data : List DetailInput) : DB × Except String Nat :=
  let oid := st.nextOfferId
  let st1 : DB :=
    { st with
      offers := st.offers ++ [⟨oid, userId, otitle, odescription⟩]
      nextOfferId := oid + 1 }
  if details_data.length ≠ 0 ∧ details_data.length ≠ 3 then
    (st1, Except.error "You must provide 3 OfferDetails.")
  else if details_data.length ≠ 0 then
    ({ st1 with
        details := st1.details ++ mkDetailRows st1.nextDetailId oid details_data
        nextDetailId := st1.nextDetailId + details_data.length },
     Except.ok oid)
  else
    (st1, Except.ok oid)

/-- Supplied data for one detail row of an offer update, as the dict the
update method reads with .get: every key may be absent
(OfferUpdateSerializer, offers_app/api/serializers.py). -/
structure DetailPatchInput where
  offer_type : Option String
  title : Option String
  revisions : Option Nat
  delivery_time_in_days : Option Nat
  price : Option Nat
  features : Option (List String)
  deriving Repr, DecidableEq

/-- Result of Django's Model.objects.get on the (offer, offer_type) filter:
DoesNotExist, MultipleObjectsReturned, or exactly one row. -/
inductive GetOne (α : Type)
  | doesNotExist
  | multipleReturned
  | found (a : α)
  deriving Repr, DecidableEq

/-- Embedding of OfferDetails.objects.get(offer=instance, offer_type=tag). -/
def getDetailByType (st : DB) (offerId : Nat) (tag : String) : GetOne OfferDetailRow :=
  match st.details.filter fun d => d.offerId == offerId && d.offer_type == tag with
  | [] => GetOne.doesNotExist
  | [d] => GetOne.found d
  | _ => GetOne.multipleReturned

/-- Embedding of the per-detail field writes plus save() in
OfferUpdateSerializer.update.  Each write is guarded by the CURRENT value
of the instance field being non-None, exactly as in the source
(`if detail_instance.price is not None: detail_instance.price =
detail_data.get('price')` and so on); `title` and `revisions` are NOT NULL
columns, so their guards always pass and saving None there raises an
IntegrityError, which we surface as an error. -/
def savePatchedDetail (d : OfferDetailRow) (p : DetailPatchInput) :
    Except String OfferDetailRow :=
  match p.title with
  | none => Except.error "IntegrityError: NOT NULL constraint failed: title"
  | some t =>
    match p.revisions with
    | none => Except.error "IntegrityError: NOT NULL constraint failed: revisions"
    | some r =>
      Except.ok
        { d with
          title := t
          revisions := r
          delivery_time_in_days :=
            if d.delivery_time_in_days.isSome then p.delivery_time_in_days
            else d.delivery_time_in_days
          price := if d.price.isSome then p.price else d.price
          features := if d.features.isSome then p.features else d.features }

/-- Replace the detail row with the given id (the save() persisting step). -/
def DB.setDetail (st : DB) (d : OfferDetailRow) : DB :=
  { st with details := st.details.map fun x => if x.id == d.id then d else x }

/-- Embedding of the details loop of OfferUpdateSerializer.update
(offers_app/api/serializers.py).  Each iteration persists its own save, so
an error in a later iteration leaves earlier writes in place (there is no
transaction).  Returns the state reached so far and either unit or the
error message. -/
def offerUpdateDetails (st : DB) (offerId : Nat) :
    List DetailPatchInput → DB × Except String Unit
  | [] => (st, Except.ok ())
  | p :: rest =>
    match p.offer_type with
    | none => (st, Except.error "Offer_type for OfferDetail must be provided.")
    | some tag =>
      match getDetailByType st offerId tag with
      | GetOne.doesNotExist => (st, Except.error "OfferDetail does not exist.")
      | GetOne.multipleReturned => (st, Except.error "MultipleObjectsReturned")
      | GetOne.found d =>
        match savePatchedDetail d p with
        | Except.error e => (st, Except.error e)
        | Except.ok d2 => offerUpdateDetails (st.setDetail d2) offerId rest

/-- Embedding of OrderSerializer.create (orders_app/api/serializers.py).
The requesting user id is none for an anonymous request.  The detail id
has already passed PrimaryKeyRelatedField validation in the callers, but
the lookups are re-done here as the source traverses the FK and calls
get_object_or_404; a failing lookup yields the 404 branch.  Since
Order's delivery_time_in_days, price and features columns are NOT NULL
while the OfferDetails columns being copied are nullable,
Order.objects.create raises an IntegrityError (an unhandled 500) when
the detail carries NULL there, and no order row is inserted. -/
def orderSerCreate (st : DB) (requestUserId : Option Nat) (detailId : Nat) :
    DB × Except Resp OrderRow :=
  match requestUserId with
  | none => (st, Except.error ⟨400, some "Authentication is required."⟩)
  | some uid =>
    match st.users.find? fun u => u.id == uid with
    | none => (st, Except.error ⟨404, some "No UserProfile matches the given query."⟩)
    | some customer =>
      match st.details.find? fun d => d.id == detailId with
      | none => (st, Except.error ⟨404, some "No OfferDetails matches the given query."⟩)
      | some det =>
        match st.offers.find? fun o => o.id == det.offerId with
        | none => (st, Except.error ⟨500, some "FK integrity violated"⟩)
        | some off =>
          match st.users.find? fun u => u.id == off.userId with
          | none => (st, Except.error ⟨404, some "No UserProfile matches the given query."⟩)
          | some business =>
            match det.delivery_time_in_days, det.price, det.features with
            | some dt, some pr, some ft =>
              let o : OrderRow :=
                { id := st.nextOrderId
                  customer_user := customer.id
                  business_user := business.id
                  title := det.title
                  revisions := det.revisions
                  delivery_time_in_days := dt
                  price := pr
                  features := ft
                  offer_type := det.offer_type
                  status := "in_progress" }
              ({ st with orders := st.orders ++ [o], nextOrderId := st.nextOrderId + 1 },
               Except.ok o)
            | _, _, _ =>
              (st, Except.error ⟨500, some "IntegrityError: NOT NULL constraint failed"⟩)

/-- The offer_detail_id value of an order-creation body: absent, a string
that does not parse as a number, or a number. -/
inductive IdField
  | absent
  | notANumber
  | num (n : Nat)
  deriving Repr, DecidableEq

/-- Body of POST /api/orders/: the offer_detail_id value plus the names of
any further keys in the JSON body. -/
structure OrderPostBody where
  offer_detail_id : IdField
  otherFields : List String
  deriving Repr, DecidableEq

/-- Embedding of OrdersView.post (orders_app/api/views.py) combined with
OrderSerializer.validate and .create.  The requesting user is an
authenticated UserRow (the view reads request.user.type before anything
else). -/
def ordersPost (st : DB) (u : UserRow) (body : OrderPostBody) : DB × Resp :=
  match body.offer_detail_id with
  | IdField.notANumber => (st, ⟨400, some "offer_detail_id must be a number."⟩)
  | IdField.absent => (st, ⟨400, some "offer_detail_id is required."⟩)
  | IdField.num did =>
    if !(st.details.any fun d => d.id == did) then
      (st, ⟨400, some "Given Offer Detail ID not found."⟩)
    else if u.type == "business" then
      (st, ⟨403, some "Only customers can create orders."⟩)
    else if !body.otherFields.isEmpty then
      (st, ⟨400, some "Only offer_detail_id is needed."⟩)
    else
      match orderSerCreate st (some u.id) did with
      | (st2, Except.error r) => (st2, r)
      | (st2, Except.ok _) => (st2, ⟨201, none⟩)

/-- Body of PATCH /api/orders/{pk}/: the writable fields (status and the
write-only offer_detail_id) plus the names of any read-only or unknown
keys, which DRF drops during validation. -/
structure OrderPatchBody where
  status : Option String
  offer_detail_id : Option Nat
  otherFields : List String
  deriving Repr, DecidableEq

/-- The three valid order status values (orders_app/models.py). -/
def orderStatusChoices : List String := ["in_progress", "completed", "cancelled"]

/-- Field-level validation of the partial body: a supplied status must be
one of the three choices. -/
def patchStatusValid (body : OrderPatchBody) : Bool :=
  match body.status with
  | none => true
  | some s => orderStatusChoices.contains s

/-- Field-level validation of the partial body: a supplied offer_detail_id
must reference an existing OfferDetails row (PrimaryKeyRelatedField). -/
def patchDetailValid (st : DB) (body : OrderPatchBody) : Bool :=
  match body.offer_detail_id with
  | none => true
  | some n => st.details.any fun d => d.id == n

/-- Embedding of OrdersView.patch (orders_app/api/views.py) combined with
the partial OrderSerializer validation and OrderSerializer.update.  The
update method rejects any validated key set other than exactly status;
read-only and unknown body fields never reach validated_data. -/
def ordersPatch (st : DB) (u : UserRow) (pk : Nat) (body : OrderPatchBody) : DB × Resp :=
  match st.orders.find? fun o => o.id == pk with
  | none => (st, ⟨404, some "Order not found"⟩)
  | some order =>
    if !(u.type == "business" && order.business_user == u.id) then
      (st, ⟨403, some "Permission denied, you need to be the creator of the related offer to change order Status!"⟩)
    else if !(patchStatusValid body && patchDetailValid st body) then
      (st, ⟨400, some "field errors"⟩)
    else if !(body.status.isSome && body.offer_detail_id.isNone) then
      (st, ⟨400, some "Only the status field can be updated. Valid values are: in_progress, completed, cancelled."⟩)
    else
      match body.status with
      | none => (st, ⟨400, some "unreachable"⟩)
      | some s =>
        ({ st with
            orders := st.orders.map fun o =>
              if o.id == pk then { o with status := s } else o },
         ⟨200, none⟩)

/-- Embedding of OrdersView.delete (orders_app/api/views.py): 404 when the
order is missing, 403 for non-staff, otherwise the row is removed and 204
returned. -/
def ordersDelete (st : DB) (u : UserRow) (pk : Nat) : DB × Resp :=
  match st.orders.find? fun o => o.id == pk with
  | none => (st, ⟨404, some "Order not found"⟩)
  | some _ =>
    if !u.is_staff then
      (st, ⟨403, some "Permission denied, only staff can delete orders!"⟩)
    else
      ({ st with orders := st.orders.filter fun o => !(o.id == pk) },
       ⟨204, none⟩)

/-- Embedding of OrderCountView.get (orders_app/api/views.py): the count of
the business user's orders excluding status completed.  Returns the
response and, on success, the count. -/
def orderCountGet (st : DB) (authenticated : Bool) (pk : Nat) : Resp × Option Nat :=
  if !(st.users.any fun u => u.id == pk) then
    (⟨404, some "User not found"⟩, none)
  else if authenticated then
    (⟨200, none⟩,
     some (st.orders.countP fun o => o.business_user == pk && !(o.status == "completed")))
  else
    (⟨403, some "Permission denied, log in to view order count"⟩, none)

/-- Embedding of CompletedOrderCountView.get (orders_app/api/views.py). -/
def completedOrderCountGet (st : DB) (authenticated : Bool) (pk : Nat) : Resp × Option Nat :=
  if !(st.users.any fun u => u.id == pk) then
    (⟨404, some "User not found"⟩, none)
  else if authenticated then
    (⟨200, none⟩,
     some (st.orders.countP fun o => o.business_user == pk && o.status == "completed"))
  else
    (⟨403, some "Permission denied, log in to view completed order count!"⟩, none)

/-- Body of POST /api/reviews/ as the view reads it from request.data:
each key may be absent. -/
structure ReviewPostBody where
  business_user : Option Nat
  rating : Option Nat
  description : Option String
  deriving Repr, DecidableEq

/-- Embedding of the duplicate check Review.objects.filter(
business_user__id=request.data.get('business_user'),
reviewer__id=request.user.id).exists(); an absent body value filters on
NULL and matches nothing. -/
def hasReviewed (st : DB) (b : Option Nat) (uid : Nat) : Bool :=
  st.reviews.any fun r =>
    (match b with
     | none => false
     | some bb => r.business_user == bb) && r.reviewer == uid

/-- Embedding of ReviewCreateSerializer validation followed by create
(reviews_app/api/serializers.py): business_user, rating and description
are required, business_user must reference an existing UserProfile
(PrimaryKeyRelatedField), the rating must lie in 1..5, the reviewer is
looked up with get_object_or_404 and the row is inserted. -/
def reviewsValidateAndCreate (st : DB) (u : UserRow) (body : ReviewPostBody) :
    DB × Resp :=
  match body.business_user, body.rating, body.description with
  | some b, some rating, some descr =>
    if !(st.users.any fun w => w.id == b) then
      (st, ⟨400, some "field errors"⟩)
    else if rating < 1 ∨ 5 < rating then
      (st, ⟨400, some "rating must be between 1 and 5"⟩)
    else
      match st.users.find? fun w => w.id == u.id with
      | none => (st, ⟨404, some "No UserProfile matches the given query."⟩)
      | some reviewer =>
        ({ st with
            reviews := st.reviews ++
              [⟨st.nextReviewId, b, reviewer.id, rating, descr⟩]
            nextReviewId := st.nextReviewId + 1 },
         ⟨201, none⟩)
  | _, _, _ => (st, ⟨400, some "field errors"⟩)

/-- Embedding of ReviewsView.post (reviews_app/api/views.py).  The
requesting user is none for an anonymous request.  The checks run in
source order: authentication, duplicate (business_user, reviewer) pair,
customer type, existing-target type, then field validation; Python
truthiness guards the target-type check, so a target id of 0 skips it. -/
def reviewsPost (st : DB) (requester : Option UserRow) (body : ReviewPostBody) :
    DB × Resp :=
  match requester with
  | none => (st, ⟨403, some "Authentication required to create reviews"⟩)
  | some u =>
    if hasReviewed st body.business_user u.id then
      (st, ⟨403, some "You have already reviewed this business user"⟩)
    else if !(u.type == "customer") then
      (st, ⟨403, some "Only customers can create reviews"⟩)
    else
      match body.business_user with
      | none => reviewsValidateAndCreate st u body
      | some b =>
        if !(b == 0) && (st.users.any fun w => w.id == b) then
          match st.users.find? fun w => w.id == b with
          | none => reviewsValidateAndCreate st u body
          | some target =>
            if !(target.type == "business") then
              (st, ⟨400, some "You can only review business users"⟩)
            else
              reviewsValidateAndCreate st u body
        else
          reviewsValidateAndCreate st u body

/-- Validated input of a registration request
(RegistrationSerializer fields, user_auth_app/api/serializers.py). -/
structure RegistrationData where
  username : String
  email : String
  password : String
  repeated_password : String
  type : String
  deriving Repr, DecidableEq

/-- Embedding of RegistrationSerializer.save
(user_auth_app/api/serializers.py): uniqueness of email then username,
password match, then the type whitelist; only when every check passes is
the account row created. -/
def registrationSave (st : DB) (d : RegistrationData) : DB × Except String UserRow :=
  if st.users.any fun u => u.email == d.email then
    (st, Except.error "email already in use")
  else if st.users.any fun u => u.username == d.username then
    (st, Except.error "username already in use")
  else if ¬ d.password == d.repeated_password then
    (st, Except.error "passwords do not match")
  else if ¬ (d.type == "business" ∨ d.type == "customer") then
    (st, Except.error "type must be business or customer")
  else
    let account : UserRow :=
      { id := st.nextUserId
        username := d.username
        email := d.email
        type := d.type
        is_staff := false
        is_superuser := false }
    ({ st with users := st.users ++ [account], nextUserId := st.nextUserId + 1 },
     Except.ok account)

/-- Embedding of OfferDetailView.get (offers_app/api/views.py): 404 with a
message when the offer does not exist, otherwise 200. -/
def offerGet (st : DB) (pk : Nat) : Resp :=
  match st.offers.find? fun o => o.id == pk with
  | none => ⟨404, some "Offer not found"⟩
  | some _ => ⟨200, none⟩

/-- Embedding of ReviewDetailView.get (reviews_app/api/views.py): 404 with
a message when the review does not exist, otherwise 200. -/
def reviewGet (st : DB) (pk : Nat) : Resp :=
  match st.reviews.find? fun r => r.id == pk with
  | none => ⟨404, some "Review not found"⟩
  | some _ => ⟨200, none⟩

/-! Concrete sample rows and states used to instantiate the theorems. -/

/-- A business account. -/
def uBiz : UserRow := ⟨1, "alice", "alice@mail.example", "business", false, false⟩

/-- A customer account. -/
def uCust : UserRow := ⟨2, "bob", "bob@mail.example", "customer", false, false⟩

/-- A staff customer account. -/
def uStaff : UserRow := ⟨3, "carol", "carol@mail.example", "customer", true, false⟩

/-- A fully populated detail row of offer 10. -/
def dBasic : OfferDetailRow := ⟨20, 10, "Basic tier", 1, some 5, some 50, some ["logo"], "basic"⟩

/-- A detail row of offer 10 whose price column is NULL. -/
def dNullPrice : OfferDetailRow := ⟨21, 10, "Standard tier", 0, some 7, none, some [], "standard"⟩

/-- An in-progress order of business user 1. -/
def oInProgress : OrderRow := ⟨30, 2, 1, "Basic tier", 1, 5, 50, ["logo"], "basic", "in_progress"⟩

/-- A completed order of business user 1. -/
def oCompleted : OrderRow := ⟨31, 2, 1, "Basic tier", 1, 5, 50, ["logo"], "basic", "completed"⟩

/-- A cancelled order of business user 1. -/
def oCancelled : OrderRow := ⟨32, 2, 1, "Basic tier", 1, 5, 50, ["logo"], "basic", "cancelled"⟩

/-- A review of business user 1 by customer 2. -/
def rvSample : ReviewRow := ⟨40, 1, 2, 5, "great work"⟩

/-- A populated database state. -/
def stA : DB :=
  { users := [uBiz, uCust, uStaff]
    offers := [⟨10, 1, "Logo design", "a nice logo"⟩]
    details := [dBasic, dNullPrice]
    orders := [oInProgress, oCompleted, oCancelled]
    reviews := [rvSample]
    nextOfferId := 11
    nextDetailId := 22
    nextOrderId := 33
    nextReviewId := 41
    nextUserId := 4 }

/-- An empty database state. -/
def stEmpty : DB := ⟨[], [], [], [], [], 1, 1, 1, 1, 1⟩

/-- A sample validated detail input. -/
def diSample : DetailInput := ⟨"B", 0, none, none, none, "basic"⟩

/-- A fully supplied detail patch targeting the standard tier. -/
def dpFull : DetailPatchInput :=
  ⟨some "standard", some "New standard", some 2, some 9, some 100, some ["x"]⟩

/-- A sample registration input. -/
def regSample : RegistrationData :=
  ⟨"dave", "dave@mail.example", "password1", "password1", "customer"⟩

/-- Whether an Except value is a success. -/
def isOkE {ε α : Type} : Except ε α → Bool
  | Except.ok _ => true
  | Except.error _ => false

end Coderr

namespace Coderr

/-! Theorems settling the claims. -/

/-- Claim C1 (code evaluated at the failing input): an offer-creation
request whose validated details list is empty is NOT rejected — the
serializer's count check is guarded by Python truthiness, so the create
succeeds and returns the new offer id, the Offer row is inserted, and no
OfferDetails row is created, contradicting the claim (and the method's
own docstring) that any detail count other than 3 raises a validation
error. -/
theorem c1_offer_create_zero_details_succeeds :
    (offerCreateSer stA 1 "New offer" "" []).2 = Except.ok 11 ∧
    (offerCreateSer stA 1 "New offer" "" []).1.details = stA.details ∧
    (offerCreateSer stA 1 "New offer" "" []).1.offers =
      stA.offers ++ [⟨11, 1, "New offer", ""⟩] := by
  refine ⟨?_, ?_, ?_⟩ <;> rfl

/-- Claim C9: offer creation is not atomic on the detail-count error path.
Whenever the supplied details list is non-empty and its length is not 3,
the serializer raises the validation error only after inserting the Offer
row, so the failed create leaves a new Offer behind, its detail table
unchanged, and the new offer id owns zero OfferDetails rows (given that no
pre-existing detail row already references the fresh id). -/
theorem c9_offer_create_not_atomic
    (st : DB) (uid : Nat) (t dsc : String) (ds : List DetailInput)
    (h1 : ds ≠ []) (h2 : ds.length ≠ 3)
    (hfresh : ∀ d ∈ st.details, d.offerId ≠ st.nextOfferId) :
    (offerCreateSer st uid t dsc ds).2 =
        Except.error "You must provide 3 OfferDetails." ∧
    (offerCreateSer st uid t dsc ds).1.offers =
        st.offers ++ [⟨st.nextOfferId, uid, t, dsc⟩] ∧
    (offerCreateSer st uid t dsc ds).1.details = st.details ∧
    ((offerCreateSer st uid t dsc ds).1.details.filter
        fun d => d.offerId == st.nextOfferId) = [] := by
  have hlen : ds.length ≠ 0 := fun h => h1 (List.length_eq_zero.mp h)
  have hcond : ds.length ≠ 0 ∧ ds.length ≠ 3 := ⟨hlen, h2⟩
  unfold offerCreateSer
  rw [if_pos hcond]
  refine ⟨rfl, rfl, rfl, ?_⟩
  simp only [List.filter_eq_nil_iff]
  intro d hd
  simpa using hfresh d hd

/-- Witness for C9 at a concrete input: a one-element details list. -/
theorem c9_offer_create_not_atomic_witness :
    ([diSample] : List DetailInput) ≠ [] ∧
    ([diSample] : List DetailInput).length ≠ 3 ∧
    (offerCreateSer stA 1 "X" "" [diSample]).2 =
        Except.error "You must provide 3 OfferDetails." ∧
    ((offerCreateSer stA 1 "X" "" [diSample]).1.details.filter
        fun d => d.offerId == stA.nextOfferId) = [] := by
  have h := c9_offer_create_not_atomic stA 1 "X" "" [diSample]
    (by decide) (by decide) (by decide)
  exact ⟨by decide, by decide, h.1, h.2.2.2⟩

/-- Claim C2, counterexample: creating an order from the NULL-price
detail row 21 produces no order at all.  Order's price column is NOT
NULL, so Order.objects.create raises an IntegrityError (an unhandled
500) and the order table is unchanged, contradicting the claim that
creating an order from an OfferDetails row produces an order mirroring
its fields. -/
theorem c2_null_price_detail_creates_no_order :
    orderSerCreate stA (some 2) 21 =
      (stA, Except.error ⟨500, some "IntegrityError: NOT NULL constraint failed"⟩) ∧
    (orderSerCreate stA (some 2) 21).1.orders = stA.orders := by
  exact ⟨rfl, rfl⟩

/-- Claim C2 as amended: when the OfferDetails row's nullable columns
(delivery_time_in_days, price, features) are all non-NULL, order creation
appends an order whose title, revisions, delivery_time_in_days, price,
features and offer_type equal the corresponding fields of that row, whose
customer_user is the requesting user, whose business_user is the owner of
the offer the detail belongs to, and whose status is in_progress; when
any of those columns is NULL, Order.objects.create raises an
IntegrityError and no order is created. -/
theorem c2_amended_order_snapshot
    (st : DB) (uid did : Nat) (customer : UserRow) (det : OfferDetailRow)
    (off : OfferRow) (owner : UserRow)
    (hc : st.users.find? (fun u => u.id == uid) = some customer)
    (hd : st.details.find? (fun d => d.id == did) = some det)
    (ho : st.offers.find? (fun o => o.id == det.offerId) = some off)
    (hb : st.users.find? (fun u => u.id == off.userId) = some owner) :
    (∀ dt pr ft, det.delivery_time_in_days = some dt → det.price = some pr →
      det.features = some ft →
      ∃ o : OrderRow,
        orderSerCreate st (some uid) did =
          ({ st with orders := st.orders ++ [o], nextOrderId := st.nextOrderId + 1 },
           Except.ok o) ∧
        o.title = det.title ∧ o.revisions = det.revisions ∧
        o.delivery_time_in_days = dt ∧ o.price = pr ∧ o.features = ft ∧
        o.offer_type = det.offer_type ∧
        o.customer_user = uid ∧ o.business_user = off.userId ∧
        o.status = "in_progress") ∧
    ((det.delivery_time_in_days = none ∨ det.price = none ∨ det.features = none) →
      orderSerCreate st (some uid) did =
        (st, Except.error ⟨500, some "IntegrityError: NOT NULL constraint failed"⟩)) := by
  have hcid : customer.id = uid := by
    have := List.find?_some hc
    simpa using this
  have hoid : owner.id = off.userId := by
    have := List.find?_some hb
    simpa using this
  constructor
  · intro dt pr ft hdt hpr hft
    refine ⟨⟨st.nextOrderId, customer.id, owner.id, det.title, det.revisions,
        dt, pr, ft, det.offer_type, "in_progress"⟩,
      ?_, rfl, rfl, rfl, rfl, rfl, rfl, hcid, hoid, rfl⟩
    simp only [orderSerCreate, hc, hd, ho, hb, hdt, hpr, hft]
  · intro h
    cases hdt : det.delivery_time_in_days with
    | none =>
      cases hpr : det.price <;> cases hft : det.features <;>
        simp only [orderSerCreate, hc, hd, ho, hb, hdt, hpr, hft]
    | some dt =>
      cases hpr : det.price with
      | none =>
        cases hft : det.features <;>
          simp only [orderSerCreate, hc, hd, ho, hb, hdt, hpr, hft]
      | some pr =>
        cases hft : det.features with
        | none => simp only [orderSerCreate, hc, hd, ho, hb, hdt, hpr, hft]
        | some ft =>
          exfalso
          rcases h with h | h | h <;> simp_all

/-- Witness for the amended C2: customer bob orders the fully populated
basic tier of alice's offer. -/
theorem c2_amended_order_snapshot_witness :
    ∃ o : OrderRow,
      orderSerCreate stA (some 2) 20 =
        ({ stA with orders := stA.orders ++ [o], nextOrderId := stA.nextOrderId + 1 },
         Except.ok o) ∧
      o.title = dBasic.title ∧ o.revisions = dBasic.revisions ∧
      o.delivery_time_in_days = 5 ∧ o.price = 50 ∧ o.features = ["logo"] ∧
      o.offer_type = dBasic.offer_type ∧
      o.customer_user = 2 ∧ o.business_user = (⟨10, 1, "Logo design", "a nice logo"⟩ : OfferRow).userId ∧
      o.status = "in_progress" :=
  (c2_amended_order_snapshot stA 2 20 uCust dBasic ⟨10, 1, "Logo design", "a nice logo"⟩ uBiz
    (by decide) (by decide) (by decide) (by decide)).1 5 50 ["logo"] rfl rfl rfl

/-- Claim C4 (code evaluated at the failing input): an offer update whose
detail row matches the standard tier and supplies price 100 leaves the
price NULL, because every field write in OfferUpdateSerializer.update is
guarded by the CURRENT value of the instance field being non-None; the
update nevertheless reports success.  The claim says the matched row's
price is overwritten with the supplied value. -/
theorem c4_update_does_not_overwrite_null_price :
    (offerUpdateDetails stA 10 [dpFull]).2 = Except.ok () ∧
    ((offerUpdateDetails stA 10 [dpFull]).1.details.find? fun d => d.id == 21) =
      some ⟨21, 10, "New standard", 2, some 9, none, some ["x"], "standard"⟩ ∧
    dpFull.price = some 100 := by
  refine ⟨rfl, rfl, rfl⟩

/-- Claim C6, counterexample: order creation with an offer_detail_id that
references no OfferDetails row answers 400, not 404, so not every request
referencing a missing resource receives a 404. -/
theorem c6_missing_detail_gives_400_not_404 :
    (ordersPost stA uCust ⟨IdField.num 999, []⟩).2 =
      ⟨400, some "Given Offer Detail ID not found."⟩ ∧
    (ordersPost stA uCust ⟨IdField.num 999, []⟩).2.status ≠ 404 := by
  refine ⟨rfl, by decide⟩

/-- Claim C6 as amended: a missing offer, order, review or user yields a
404 response with a message body, while the one exception is order
creation, where a missing offer detail referenced by offer_detail_id
yields 400 with a message body. -/
theorem c6_amended_missing_resource_responses
    (st : DB) (u : UserRow) (auth : Bool) (pk did : Nat) (extra : List String) :
    (st.offers.find? (fun o => o.id == pk) = none →
      offerGet st pk = ⟨404, some "Offer not found"⟩) ∧
    (st.orders.find? (fun o => o.id == pk) = none →
      (∀ body : OrderPatchBody,
        ordersPatch st u pk body = (st, ⟨404, some "Order not found"⟩)) ∧
      ordersDelete st u pk = (st, ⟨404, some "Order not found"⟩)) ∧
    (st.reviews.find? (fun r => r.id == pk) = none →
      reviewGet st pk = ⟨404, some "Review not found"⟩) ∧
    ((st.users.any fun w => w.id == pk) = false →
      orderCountGet st auth pk = (⟨404, some "User not found"⟩, none) ∧
      completedOrderCountGet st auth pk = (⟨404, some "User not found"⟩, none)) ∧
    ((st.details.any fun d => d.id == did) = false →
      ordersPost st u ⟨IdField.num did, extra⟩ =
        (st, ⟨400, some "Given Offer Detail ID not found."⟩)) := by
  refine ⟨?_, ?_, ?_, ?_, ?_⟩
  · intro h
    simp [offerGet, h]
  · intro h
    exact ⟨fun body => by simp [ordersPatch, h], by simp [ordersDelete, h]⟩
  · intro h
    simp [reviewGet, h]
  · intro h
    exact ⟨by simp [orderCountGet, h], by simp [completedOrderCountGet, h]⟩
  · intro h
    simp [ordersPost, h]

/-- Witness for the amended C6 on the empty state, where every lookup
misses. -/
theorem c6_amended_witness :
    offerGet stEmpty 7 = ⟨404, some "Offer not found"⟩ ∧
    ordersPatch stEmpty uBiz 7 ⟨none, none, []⟩ = (stEmpty, ⟨404, some "Order not found"⟩) ∧
    ordersDelete stEmpty uBiz 7 = (stEmpty, ⟨404, some "Order not found"⟩) ∧
    reviewGet stEmpty 7 = ⟨404, some "Review not found"⟩ ∧
    orderCountGet stEmpty true 7 = (⟨404, some "User not found"⟩, none) ∧
    ordersPost stEmpty uBiz ⟨IdField.num 9, []⟩ =
      (stEmpty, ⟨400, some "Given Offer Detail ID not found."⟩) := by
  have h := c6_amended_missing_resource_responses stEmpty uBiz true 7 9 []
  exact ⟨h.1 rfl, (h.2.1 rfl).1 _, (h.2.1 rfl).2, h.2.2.1 rfl,
    (h.2.2.2.1 rfl).1, h.2.2.2.2 rfl⟩

/-- Claim C3, counterexample: a PATCH by the owning business user whose
body carries the read-only field title alongside status is NOT rejected —
DRF drops the read-only field during validation, the update succeeds with
200 and the status is changed; the claim says any field other than status
in the body causes a validation error. -/
theorem c3_extra_field_alongside_status_not_rejected :
    (ordersPatch stA uBiz 30 ⟨some "completed", none, ["title"]⟩).2 = ⟨200, none⟩ ∧
    ((ordersPatch stA uBiz 30 ⟨some "completed", none, ["title"]⟩).1.orders.find?
        fun o => o.id == 30) = some { oInProgress with status := "completed" } := by
  refine ⟨rfl, rfl⟩

/-- Claim C3 as amended: a PATCH on an existing order by a requester who is
not a business-type user equal to the order's business_user answers 403
and leaves the order unchanged; a PATCH by the owning business user whose
validated writable fields are not exactly the status field (no status
supplied, or an offer_detail_id supplied) causes a validation error,
while read-only or unknown body fields alongside status are ignored; a
valid status PATCH by the owning business user updates only the status
field. -/
theorem c3_amended_status_update_rules
    (st : DB) (u : UserRow) (pk : Nat) (body : OrderPatchBody) (order : OrderRow)
    (hfound : st.orders.find? (fun o => o.id == pk) = some order) :
    (¬ (u.type = "business" ∧ order.business_user = u.id) →
      ordersPatch st u pk body =
        (st, ⟨403, some "Permission denied, you need to be the creator of the related offer to change order Status!"⟩)) ∧
    (u.type = "business" → order.business_user = u.id →
     patchStatusValid body = true → patchDetailValid st body = true →
     ¬ (body.status.isSome = true ∧ body.offer_detail_id = none) →
      ordersPatch st u pk body =
        (st, ⟨400, some "Only the status field can be updated. Valid values are: in_progress, completed, cancelled."⟩)) ∧
    (∀ s, u.type = "business" → order.business_user = u.id →
     body.status = some s → orderStatusChoices.contains s = true →
     body.offer_detail_id = none →
      ordersPatch st u pk body =
        ({ st with orders := st.orders.map fun o =>
            if o.id == pk then { o with status := s } else o },
         ⟨200, none⟩)) := by
  refine ⟨?_, ?_, ?_⟩
  · intro h
    have hb : (u.type == "business" && order.business_user == u.id) = false := by
      cases hby : (u.type == "business" && order.business_user == u.id)
      · rfl
      · exact absurd (by simpa [Bool.and_eq_true, beq_iff_eq] using hby) h
    simp [ordersPatch, hfound, hb]
  · intro h1 h2 h3 h4 h5
    have hb : (u.type == "business" && order.business_user == u.id) = true := by
      simp [Bool.and_eq_true, beq_iff_eq, h1, h2]
    have hk : (body.status.isSome && body.offer_detail_id.isNone) = false := by
      cases hks : (body.status.isSome && body.offer_detail_id.isNone)
      · rfl
      · refine absurd ?_ h5
        rw [Bool.and_eq_true] at hks
        exact ⟨hks.1, Option.isNone_iff_eq_none.mp hks.2⟩
    simp [ordersPatch, hfound, hb, h3, h4, hk]
  · intro s h1 h2 hs hvalid hoid
    have hb : (u.type == "business" && order.business_user == u.id) = true := by
      simp [Bool.and_eq_true, beq_iff_eq, h1, h2]
    have h3 : patchStatusValid body = true := by
      simp only [patchStatusValid, hs]
      exact hvalid
    have h4 : patchDetailValid st body = true := by
      simp [patchDetailValid, hoid]
    have hk : (body.status.isSome && body.offer_detail_id.isNone) = true := by
      simp [hs, hoid]
    simp [ordersPatch, hfound, hb, h3, h4, hk, hs, hoid]

/-- Witness for the amended C3: the owning business user sets the status
of order 30 to cancelled. -/
theorem c3_amended_witness :
    ordersPatch stA uBiz 30 ⟨some "cancelled", none, []⟩ =
      ({ stA with orders := stA.orders.map fun o =>
          if o.id == 30 then { o with status := "cancelled" } else o },
       ⟨200, none⟩) := by
  have h := c3_amended_status_update_rules stA uBiz 30
    ⟨some "cancelled", none, []⟩ oInProgress (by decide)
  exact h.2.2 "cancelled" rfl rfl rfl (by decide) rfl

/-- Claim C7: only staff may delete an order.  A DELETE on an existing
order by a non-staff user answers 403 and the order still exists
afterwards; a DELETE by a staff user removes every order with that id and
answers 204. -/
theorem c7_order_delete_staff_only
    (st : DB) (u : UserRow) (pk : Nat) (order : OrderRow)
    (hfound : st.orders.find? (fun o => o.id == pk) = some order) :
    (u.is_staff = false →
      ordersDelete st u pk =
        (st, ⟨403, some "Permission denied, only staff can delete orders!"⟩) ∧
      order ∈ (ordersDelete st u pk).1.orders) ∧
    (u.is_staff = true →
      ordersDelete st u pk =
        ({ st with orders := st.orders.filter fun o => !(o.id == pk) },
         ⟨204, none⟩) ∧
      ∀ o ∈ (ordersDelete st u pk).1.orders, o.id ≠ pk) := by
  have hmem : order ∈ st.orders := List.mem_of_find?_eq_some hfound
  refine ⟨?_, ?_⟩
  · intro h
    have heq : ordersDelete st u pk =
        (st, ⟨403, some "Permission denied, only staff can delete orders!"⟩) := by
      simp [ordersDelete, hfound, h]
    refine ⟨heq, ?_⟩
    rw [heq]
    exact hmem
  · intro h
    have heq : ordersDelete st u pk =
        ({ st with orders := st.orders.filter fun o => !(o.id == pk) },
         ⟨204, none⟩) := by
      simp [ordersDelete, hfound, h]
    refine ⟨heq, ?_⟩
    rw [heq]
    intro o ho
    have := List.of_mem_filter ho
    simpa using this

/-- Witness for C7: the non-staff customer is refused, the staff user
deletes order 30. -/
theorem c7_order_delete_staff_only_witness :
    ordersDelete stA uCust 30 =
      (stA, ⟨403, some "Permission denied, only staff can delete orders!"⟩) ∧
    ordersDelete stA uStaff 30 =
      ({ stA with orders := stA.orders.filter fun o => !(o.id == 30) },
       ⟨204, none⟩) := by
  have h1 := c7_order_delete_staff_only stA uCust 30 oInProgress (by decide)
  have h2 := c7_order_delete_staff_only stA uStaff 30 oInProgress (by decide)
  exact ⟨(h1.1 rfl).1, (h2.2 rfl).1⟩

/-- Claim C5: review creation is restricted to customer-type users
targeting business-type users, and a reviewer may only review a business
once.  An authenticated non-customer is rejected with 403 and the state
is unchanged; an authenticated customer with no prior review targeting an
existing non-business user (with a non-zero id, as Python truthiness
guards the check) is rejected with 400; a duplicate
(business_user, reviewer) pair is rejected with 403 without creating a
review row. -/
theorem c5_review_create_restrictions
    (st : DB) (u : UserRow) (body : ReviewPostBody) :
    (u.type ≠ "customer" →
      (reviewsPost st (some u) body).1 = st ∧
      (reviewsPost st (some u) body).2.status = 403) ∧
    (hasReviewed st body.business_user u.id = true →
      reviewsPost st (some u) body =
        (st, ⟨403, some "You have already reviewed this business user"⟩)) ∧
    (∀ b target, hasReviewed st body.business_user u.id = false →
      u.type = "customer" → body.business_user = some b → b ≠ 0 →
      st.users.find? (fun w => w.id == b) = some target →
      target.type ≠ "business" →
      reviewsPost st (some u) body =
        (st, ⟨400, some "You can only review business users"⟩)) := by
  refine ⟨?_, ?_, ?_⟩
  · intro h
    cases hdup : hasReviewed st body.business_user u.id
    · have hc : (u.type == "customer") = false := by
        simp [h]
      constructor
      · simp [reviewsPost, hdup, hc]
      · simp [reviewsPost, hdup, hc]
    · constructor
      · simp [reviewsPost, hdup]
      · simp [reviewsPost, hdup]
  · intro h
    simp [reviewsPost, h]
  · intro b target hdup hcust hbody hb0 hfind htype
    rw [hbody] at hdup
    have hc : (u.type == "customer") = true := by simp [hcust]
    have hp : target.id = b := by
      have := List.find?_some hfind
      simpa using this
    have hany : (st.users.any fun w => w.id == b) = true :=
      List.any_eq_true.mpr ⟨target, List.mem_of_find?_eq_some hfind, by simp [hp]⟩
    have hb : (!(b == 0) && (st.users.any fun w => w.id == b)) = true := by
      simp [hany, hb0]
    have ht : (target.type == "business") = false := by
      simp [htype]
    simp [reviewsPost, hdup, hc, hbody, hb, hfind, ht]

/-- Witness for C5: the non-customer alice is refused with 403; bob is
refused with 403 for reviewing business user 1 twice; bob is refused with
400 for targeting the customer-type user 3. -/
theorem c5_review_create_restrictions_witness :
    (reviewsPost stA (some uBiz) ⟨some 3, some 4, some "x"⟩).2.status = 403 ∧
    reviewsPost stA (some uCust) ⟨some 1, some 4, some "x"⟩ =
      (stA, ⟨403, some "You have already reviewed this business user"⟩) ∧
    reviewsPost stA (some uCust) ⟨some 3, some 4, some "nice"⟩ =
      (stA, ⟨400, some "You can only review business users"⟩) := by
  have h1 := c5_review_create_restrictions stA uBiz ⟨some 3, some 4, some "x"⟩
  have h2 := c5_review_create_restrictions stA uCust ⟨some 1, some 4, some "x"⟩
  have h3 := c5_review_create_restrictions stA uCust ⟨some 3, some 4, some "nice"⟩
  exact ⟨(h1.1 (by decide)).2, h2.2.1 (by decide),
    h3.2.2 3 uStaff (by decide) rfl rfl (by decide) (by decide) (by decide)⟩

/-- Claim C8: registration succeeds exactly when the password equals the
repeated password, the email and username are unused, and the type is
business or customer; a failing check raises the error and creates no
account, and a success appends an account carrying the requested
username, email and type. -/
theorem c8_registration_checks (st : DB) (d : RegistrationData) :
    (isOkE (registrationSave st d).2 = true ↔
      ((∀ u ∈ st.users, u.email ≠ d.email) ∧
       (∀ u ∈ st.users, u.username ≠ d.username) ∧
       d.password = d.repeated_password ∧
       (d.type = "business" ∨ d.type = "customer"))) ∧
    (∀ e, (registrationSave st d).2 = Except.error e →
      (registrationSave st d).1 = st) ∧
    (∀ a, (registrationSave st d).2 = Except.ok a →
      (registrationSave st d).1.users = st.users ++ [a] ∧
      a.username = d.username ∧ a.email = d.email ∧ a.type = d.type) := by
  by_cases h1 : (st.users.any fun u => u.email == d.email) = true
  · have heq : registrationSave st d = (st, Except.error "email already in use") := by
      simp [registrationSave, h1]
    rw [heq]
    refine ⟨iff_of_false (by simp [isOkE]) ?_, fun e _ => rfl, fun a ha => by simp at ha⟩
    rintro ⟨hA, -, -, -⟩
    obtain ⟨u, hu, he⟩ := List.any_eq_true.mp h1
    exact hA u hu (by simpa using he)
  · by_cases h2 : (st.users.any fun u => u.username == d.username) = true
    · have heq : registrationSave st d = (st, Except.error "username already in use") := by
        simp [registrationSave, h1, h2]
      rw [heq]
      refine ⟨iff_of_false (by simp [isOkE]) ?_, fun e _ => rfl, fun a ha => by simp at ha⟩
      rintro ⟨-, hB, -, -⟩
      obtain ⟨u, hu, he⟩ := List.any_eq_true.mp h2
      exact hB u hu (by simpa using he)
    · by_cases h3 : d.password = d.repeated_password
      · by_cases h4 : d.type = "business" ∨ d.type = "customer"
        · have heq : registrationSave st d =
              ({ st with
                  users := st.users ++
                    [⟨st.nextUserId, d.username, d.email, d.type, false, false⟩]
                  nextUserId := st.nextUserId + 1 },
               Except.ok ⟨st.nextUserId, d.username, d.email, d.type, false, false⟩) := by
            rcases h4 with h4 | h4 <;> simp [registrationSave, h1, h2, h3, h4]
          rw [heq]
          refine ⟨iff_of_true rfl ⟨?_, ?_, h3, h4⟩, fun e he => by simp at he,
            fun a ha => ?_⟩
          · intro u hu he
            exact h1 (List.any_eq_true.mpr ⟨u, hu, by simp [he]⟩)
          · intro u hu hn
            exact h2 (List.any_eq_true.mpr ⟨u, hu, by simp [hn]⟩)
          · have hacc : (⟨st.nextUserId, d.username, d.email, d.type, false, false⟩ : UserRow) = a := by
              simpa using ha
            subst hacc
            exact ⟨rfl, rfl, rfl, rfl⟩
        · have hb : d.type ≠ "business" := fun h => h4 (Or.inl h)
          have hc : d.type ≠ "customer" := fun h => h4 (Or.inr h)
          have heq : registrationSave st d =
              (st, Except.error "type must be business or customer") := by
            simp [registrationSave, h1, h2, h3, hb, hc]
          rw [heq]
          refine ⟨iff_of_false (by simp [isOkE]) ?_, fun e _ => rfl,
            fun a ha => by simp at ha⟩
          rintro ⟨-, -, -, hD⟩
          exact h4 hD
      · have heq : registrationSave st d =
            (st, Except.error "passwords do not match") := by
          simp [registrationSave, h1, h2, h3]
        rw [heq]
        refine ⟨iff_of_false (by simp [isOkE]) ?_, fun e _ => rfl,
          fun a ha => by simp at ha⟩
        rintro ⟨-, -, hC, -⟩
        exact h3 hC

/-- Witness for C8: registering dave on the sample state succeeds and
appends the requested account. -/
theorem c8_registration_checks_witness :
    isOkE (registrationSave stA regSample).2 = true ∧
    (registrationSave stA regSample).1.users =
      stA.users ++ [⟨4, "dave", "dave@mail.example", "customer", false, false⟩] := by
  have h := c8_registration_checks stA regSample
  refine ⟨h.1.mpr ⟨by decide, by decide, rfl, Or.inr rfl⟩, ?_⟩
  exact (h.2.2 ⟨4, "dave", "dave@mail.example", "customer", false, false⟩ rfl).1

/-- Counting helper: a predicate-and-complement split of countP. -/
theorem countP_bool_partition {α : Type} (l : List α) (p q : α → Bool) :
    (l.countP fun a => p a && !(q a)) + (l.countP fun a => p a && q a) =
      l.countP p := by
  induction l with
  | nil => rfl
  | cons x xs ih =>
    simp only [List.countP_cons]
    cases hp : p x <;> cases hq : q x <;> simp [hp, hq] <;> omega

/-- Claim C10: for an existing business user, authenticated requests see
the order-count endpoint return the number of that user's orders whose
status is not completed (a predicate that is true on cancelled orders),
the completed-order-count endpoint return the number whose status is
completed, and the two counts sum to the user's total number of
orders. -/
theorem c10_order_count_partition
    (st : DB) (pk : Nat) (bu : UserRow)
    (hmem : bu ∈ st.users) (hid : bu.id = pk) (hbiz : bu.type = "business") :
    orderCountGet st true pk =
      (⟨200, none⟩,
       some (st.orders.countP fun o => o.business_user == pk && !(o.status == "completed"))) ∧
    completedOrderCountGet st true pk =
      (⟨200, none⟩,
       some (st.orders.countP fun o => o.business_user == pk && o.status == "completed")) ∧
    (∀ o ∈ st.orders, o.business_user = pk → o.status = "cancelled" →
      (o.business_user == pk && !(o.status == "completed")) = true) ∧
    (st.orders.countP fun o => o.business_user == pk && !(o.status == "completed")) +
      (st.orders.countP fun o => o.business_user == pk && o.status == "completed") =
      st.orders.countP fun o => o.business_user == pk := by
  have hany : (st.users.any fun u => u.id == pk) = true :=
    List.any_eq_true.mpr ⟨bu, hmem, by simp [hid]⟩
  refine ⟨?_, ?_, ?_, ?_⟩
  · simp [orderCountGet, hany]
  · simp [completedOrderCountGet, hany]
  · intro o _ hbu hst
    simp [hbu, hst]
  · exact countP_bool_partition st.orders
      (fun o => o.business_user == pk) (fun o => o.status == "completed")

/-- Witness for C10 on the sample state: business user 1 has one
in-progress, one cancelled and one completed order, so the counts are 2
and 1 and they sum to 3. -/
theorem c10_order_count_partition_witness :
    (orderCountGet stA true 1).2 = some 2 ∧
    (completedOrderCountGet stA true 1).2 = some 1 ∧
    (2 : Nat) + 1 = stA.orders.countP fun o => o.business_user == 1 := by
  have h := c10_order_count_partition stA 1 uBiz (by decide) rfl rfl
  refine ⟨?_, ?_, ?_⟩
  · rw [h.1]
    decide
  · rw [h.2.1]
    decide
  · decide

end Coderr
